import Mathlib

set_option autoImplicit false

/-!
Shallow embedding of the core of the `faculty`/`sherlockml` SDK:
the experiment client's run listing and pagination schemas
(src/faculty/clients/experiment.py) and the datasets virtual path
synchronizer (src/faculty/datasets/__init__.py).

Python strings are modelled as lists of characters, machine integers as
Int (Python integers are unbounded), fallible code as Except, and the
external transport / object store as explicit parameters together with a
trace of the operations issued.
-/

/-- Errors raised by the embedded Python code. -/
inductive PyErr
  | nameError
  | typeError
  | datasetsError
  | ioError
  | notImplementedError
  | schemaError
  | serviceError
  | callerError
deriving DecidableEq, Repr

namespace Experiment

/-- Page namedtuple from src/faculty/clients/experiment.py: one fetch window. -/
structure Page where
  start : Int
  limit : Int
deriving DecidableEq, Repr

/-- Pagination namedtuple: the server-reported cursor state. -/
structure Pagination where
  start : Int
  size : Int
  previous : Option Page
  next : Option Page
deriving DecidableEq, Repr

/-- ListExperimentRunsResponse namedtuple, generic in the run payload type. -/
structure ListRunsResponse (α : Type) where
  runs : List α
  pagination : Pagination

/-- Query parameters built by list_runs: experimentId, start and limit keys. -/
def runQueryParams (experiment_ids : Option (List Int)) (start limit : Option Int) :
    List (String × Int) :=
  let ps : List (String × Int) :=
    match experiment_ids with
    | none => []
    | some ids => ids.map (fun i => ("experimentId", i))
  let ps :=
    match start with
    | none => ps
    | some s => ps ++ [("start", s)]
  match limit with
  | none => ps
  | some l => ps ++ [("limit", l)]

/-- ExperimentClient.list_runs. The HTTP transport is a parameter; the second
component of the result is the list of transport calls issued (endpoint and
query parameters). Mirrors the source: lifecycle_stage non-None raises
NotImplementedError; an explicitly empty experiment_ids list short-circuits
with an empty response and no transport call; otherwise a single GET. -/
def list_runs {α : Type} (transport : String → List (String × Int) → ListRunsResponse α)
    (project_id : String) (experiment_ids : Option (List Int))
    (lifecycle_stage : Option Unit) (start limit : Option Int) :
    Except PyErr (ListRunsResponse α) × List (String × List (String × Int)) :=
  match lifecycle_stage with
  | some _ => (.error .notImplementedError, [])
  | none =>
    match experiment_ids with
    | some [] => (.ok ⟨[], ⟨0, 0, none, none⟩⟩, [])
    | _ =>
      let ps := runQueryParams experiment_ids start limit
      let endpoint := "/project/" ++ project_id ++ "/run"
      (.ok (transport endpoint ps), [(endpoint, ps)])

/-- JSON values as used by the marshmallow schemas in the source. -/
inductive Json
  | null
  | int (n : Int)
  | obj (kvs : List (String × Json))

/-- First binding of a key in a JSON object. -/
def lookupKey (kvs : List (String × Json)) (k : String) : Option Json :=
  match kvs with
  | [] => none
  | (k', v) :: rest => if k' == k then some v else lookupKey rest k

/-- Serialization of a Page by PageSchema (fields start and limit). -/
def PageSchema_dump (p : Page) : Json :=
  .obj [("start", .int p.start), ("limit", .int p.limit)]

/-- marshmallow dumps a None nested value as null. -/
def dumpNestedPage : Option Page → Json
  | none => .null
  | some pg => PageSchema_dump pg

/-- Serialization of a Pagination by PaginationSchema. -/
def PaginationSchema_dump (p : Pagination) : Json :=
  .obj [("start", .int p.start), ("size", .int p.size),
        ("previous", dumpNestedPage p.previous), ("next", dumpNestedPage p.next)]

/-- A required Integer field: present and numeric, else a schema error. -/
def requiredInt (kvs : List (String × Json)) (k : String) : Except PyErr Int :=
  match lookupKey kvs k with
  | some (.int n) => .ok n
  | _ => .error .schemaError

/-- Deserialization by PageSchema: start and limit are required Integers. -/
def PageSchema_load (j : Json) : Except PyErr Page :=
  match j with
  | .obj kvs => do
      let s ← requiredInt kvs "start"
      let l ← requiredInt kvs "limit"
      .ok ⟨s, l⟩
  | _ => .error .schemaError

/-- A Nested(PageSchema, missing=None) field: an absent key loads as None, a
present null is rejected (allow_none defaults to False), a present object is
loaded by PageSchema. -/
def nestedPageField (kvs : List (String × Json)) (k : String) :
    Except PyErr (Option Page) :=
  match lookupKey kvs k with
  | none => .ok none
  | some .null => .error .schemaError
  | some j => (PageSchema_load j).map some

/-- Deserialization by PaginationSchema. -/
def PaginationSchema_load (j : Json) : Except PyErr Pagination :=
  match j with
  | .obj kvs => do
      let s ← requiredInt kvs "start"
      let z ← requiredInt kvs "size"
      let p ← nestedPageField kvs "previous"
      let n ← nestedPageField kvs "next"
      .ok ⟨s, z, p, n⟩
  | _ => .error .schemaError

end Experiment

/-- Python strings, modelled as lists of characters. -/
abbrev PyStr := List Char

/-- Conversion from a Lean string literal. -/
def pstr (s : String) : PyStr := s.toList

namespace Datasets

/-- Python str.split(sep) for a single-character separator: splitting the
empty string yields one empty component, and separators at the ends yield
empty components. -/
def pySplit (sep : Char) : PyStr → List PyStr
  | [] => [[]]
  | c :: rest =>
    if c == sep then [] :: pySplit sep rest
    else
      match pySplit sep rest with
      | [] => [[c]]
      | s :: ss => (c :: s) :: ss

/-- Python str.startswith for a single-character test. -/
def startsWithDot (s : PyStr) : Bool :=
  match s with
  | [] => false
  | c :: _ => c == '.'

/-- Python path.endswith of a trailing slash. -/
def endsWithSlash (s : PyStr) : Bool :=
  match s.getLast? with
  | none => false
  | some c => c == '/'

/-- The hidden-path test of ls: some slash-separated segment of the path
starts with a dot. -/
def hasHiddenSegment (p : PyStr) : Bool :=
  (pySplit '/' p).any startsWithDot

/-- One response of ObjectClient.list: the object paths of the page and the
optional token of the next page. -/
structure PageResp where
  objects : List PyStr
  next_page_token : Option Nat

/-- The while loop of ls: while the current response carries a next page
token, fetch the next page and append its paths. Fuel bounds the number of
iterations; a server whose token chain does not terminate within the fuel
yields none. -/
def lsLoop (server : Option Nat → PageResp) :
    Nat → List PyStr → Option Nat → Option (List PyStr)
  | _, acc, none => some acc
  | 0, _, some _ => none
  | fuel + 1, acc, some t =>
    let r := server (some t)
    lsLoop server fuel (acc ++ r.objects) r.next_page_token

/-- ls from src/faculty/datasets/__init__.py: one initial list call, then the
page-draining loop, then the hidden filter unless show_hidden. -/
def ls_model (server : Option Nat → PageResp) (fuel : Nat) (show_hidden : Bool) :
    Option (List PyStr) :=
  let r := server none
  match lsLoop server fuel r.objects r.next_page_token with
  | none => none
  | some paths =>
    some (if show_hidden then paths else paths.filter (fun p => !hasHiddenSegment p))

/-- A canonical paged server built from a list of pages: the initial call
returns page 0, the call with token i returns page i, and each response
carries the token of the following page when one exists. -/
def serverOfPages (pages : List (List PyStr)) : Option Nat → PageResp
  | none =>
    ⟨pages.headD [], if 1 < pages.length then some 1 else none⟩
  | some i =>
    ⟨(pages.drop i).headD [], if i + 1 < pages.length then some (i + 1) else none⟩

end Datasets

namespace Datasets

/-- Strip all trailing slashes, as in the final step of posixpath.dirname. -/
def dropTrailingSlashes (p : PyStr) : PyStr :=
  (p.reverse.dropWhile (fun c => c == '/')).reverse

/-- os.path.dirname on POSIX: the part of the path up to and including the
last slash, with trailing slashes stripped unless the head is all slashes;
empty when the path has no slash. -/
def dirname (p : PyStr) : PyStr :=
  let head := (p.reverse.dropWhile (fun c => !(c == '/'))).reverse
  if head.isEmpty || head.all (fun c => c == '/') then head
  else dropTrailingSlashes head

/-- os.path.join / posixpath.join of two components: an absolute second
component wins; otherwise a single slash separates the components. -/
def pyJoin (a b : PyStr) : PyStr :=
  match b with
  | '/' :: _ => b
  | _ => if a.isEmpty || endsWithSlash a then a ++ b else a ++ '/' :: b

/-- Append a trailing slash when absent. -/
def ensureTrailingSlash (p : PyStr) : PyStr :=
  if endsWithSlash p then p else p ++ ['/']

/-- Prepend a leading slash when absent. -/
def ensureLeadingSlash (p : PyStr) : PyStr :=
  match p with
  | '/' :: _ => p
  | _ => '/' :: p

/-- Modelled from the spec: faculty.datasets.path.project_relative_path (the
module faculty.datasets.path is not under src/). Per the spec, the directory
branch of get "computes the path relative to projectPath" for every listed
entry. The project path is normalised to a directory prefix with leading and
trailing slash, and that prefix is stripped from the object path. -/
def project_relative_path (project_path object_path : PyStr) : PyStr :=
  let base := ensureTrailingSlash (ensureLeadingSlash project_path)
  if base.isPrefixOf object_path then object_path.drop base.length
  else object_path

/-- The chain of directory prefixes obtained by extending a base directory
with successive path components. -/
def ancestorChain : PyStr → List PyStr → List PyStr
  | base, [] => [base]
  | base, c :: rest => base :: ancestorChain (base ++ c ++ ['/']) rest

/-- Modelled from the spec: faculty.datasets.path.project_parent_directories
(the module faculty.datasets.path is not under src/). Per the spec, put
"materializes every missing ancestor directory marker between project root
and projectPath's parent", and directory markers carry a trailing slash: the
result is the chain of ancestor directories from the root down to the parent
of the given path, each with a trailing slash. -/
def project_parent_directories (p : PyStr) : List PyStr :=
  ancestorChain ['/'] (((pySplit '/' p).filter (fun s => !s.isEmpty)).dropLast)

/-- Operations the datasets layer issues against the object store, the HTTP
transport and the local filesystem. listObjects stands for one ls invocation,
i.e. at least one HTTP list call. -/
inductive Op
  | listObjects (pfx : PyStr)
  | createDirectory (p : PyStr)
  | upload (project_path local_path : PyStr)
  | download (project_path local_path : PyStr)
  | makedirs (p : PyStr)
deriving DecidableEq, Repr

/-- True for the transport-backed listing operation. -/
def isListOp : Op → Bool
  | .listObjects _ => true
  | _ => false

/-- True for a download of an object into a local path. -/
def isDownloadOp : Op → Bool
  | .download _ _ => true
  | _ => false

/-- The environment of the datasets operations: the drained hidden-inclusive
listing the object store reports for a prefix (the paging loop is verified
separately and abstracted here), and the directories existing on the local
filesystem, which is all the local state the embedded checks consult. -/
structure DsEnv where
  listing : PyStr → List PyStr
  localDirs : List PyStr

/-- ls at the granularity of the drained listing: the hidden filter of the
source applied to the full listing, together with the issued operation. -/
def ls_t (env : DsEnv) (pfx : PyStr) (show_hidden : Bool) :
    List PyStr × List Op :=
  let paths := env.listing pfx
  (if show_hidden then paths
   else paths.filter (fun p => !hasHiddenSegment p),
   [.listObjects pfx])

/-- _isdir from the source: append a trailing slash when absent, list with
show_hidden true, and report a directory when at least one path matches. -/
def _isdir_t (env : DsEnv) (project_path : PyStr) : Bool × List Op :=
  let pp := if endsWithSlash project_path then project_path
            else project_path ++ ['/']
  let r := ls_t env pp true
  (decide (1 ≤ r.1.length), r.2)

/-- _get_file from the source: a destination ending in a slash raises
DatasetsError before the transfer; otherwise the object is downloaded. -/
def _get_file_t (project_path local_path : PyStr) :
    Except PyErr Unit × List Op :=
  if endsWithSlash local_path then (.error .datasetsError, [])
  else (.ok (), [.download project_path local_path])

/-- The entry loop of _get_directory. Entries with a trailing slash have the
corresponding local directory created when absent. For any other entry the
source first creates the containing local directory when absent and then
calls _get_file(object_path, local_dest, project_id) — three arguments for
four required parameters — so Python raises TypeError at that call. dirs
accumulates the directories created so far. -/
def getDirLoop (project_path local_path : PyStr) (dirs : List PyStr) :
    List PyStr → Except PyErr Unit × List Op
  | [] => (.ok (), [])
  | objectPath :: rest =>
    let localDest := pyJoin local_path (project_relative_path project_path objectPath)
    if endsWithSlash objectPath then
      if dirs.contains localDest then getDirLoop project_path local_path dirs rest
      else
        let r := getDirLoop project_path local_path (localDest :: dirs) rest
        (r.1, .makedirs localDest :: r.2)
    else
      let dn := dirname localDest
      (.error .typeError, if dirs.contains dn then [] else [.makedirs dn])

/-- _get_directory from the source: fail with IOError when the directory
containing local_path does not exist locally, else list the project path with
hidden entries included and process every entry. -/
def _get_directory_t (env : DsEnv) (project_path local_path : PyStr) :
    Except PyErr Unit × List Op :=
  let containing := let d := dirname local_path; if d.isEmpty then ['.'] else d
  if !(env.localDirs.contains containing) then (.error .ioError, [])
  else
    let r := ls_t env project_path true
    let l := getDirLoop project_path local_path env.localDirs r.1
    (l.1, r.2 ++ l.2)

/-- get from the source: classify the project path with _isdir, then delegate
to the directory or the file branch. -/
def get_t (env : DsEnv) (project_path local_path : PyStr) :
    Except PyErr Unit × List Op :=
  let c := _isdir_t env project_path
  if c.1 then
    let r := _get_directory_t env project_path local_path
    (r.1, c.2 ++ r.2)
  else
    let r := _get_file_t project_path local_path
    (r.1, c.2 ++ r.2)

/-- _create_parent_directories from the source, as the list of operations it
issues: one root listing, then a create_directory for every parent directory
of the project path that is neither the root nor present in that listing, in
iteration order. -/
def _create_parent_directories_ops (rootListing : List PyStr)
    (project_path : PyStr) : List Op :=
  Op.listObjects ['/'] ::
    (project_parent_directories project_path).foldr
      (fun d acc =>
        if d = ['/'] then acc
        else if rootListing.contains d then acc
        else .createDirectory d :: acc) []

/-- put from the source. After defaulting project_id and applying os.fspath,
line 222 evaluates the module-level name _s3_client. That name is defined
nowhere in src/faculty/datasets/__init__.py and is not among its imports, so
Python raises NameError there — before the root listing, before any ancestor
directory creation and before any upload; no operation is issued. -/
def put_model (local_path project_path : PyStr) : Except PyErr Unit × List Op :=
  (.error .nameError, [])

/-- One execution of the open context manager, from the point where the
temporary directory has been created. The flags describe the run: whether
transfer.download wrote the file before raising, whether it raised, whether
io.open raised, and whether the caller's body raised. -/
structure OpenRun where
  downloadWritesFile : Bool
  downloadRaises : Bool
  ioOpenRaises : Bool
  bodyRaises : Bool

/-- Existence of the temporary file and of the temporary directory. -/
structure TmpState where
  tmpFileExists : Bool
  tmpDirExists : Bool
deriving DecidableEq, Repr

/-- The finally block of open: remove the temporary file if it is a file,
then rmdir the temporary directory if it is a directory. The only entry ever
created inside the directory is the downloaded file, so after the conditional
removal the directory is empty and rmdir succeeds whenever it exists. -/
def openFinally (s : TmpState) : TmpState :=
  let s1 := if s.tmpFileExists then TmpState.mk false s.tmpDirExists else s
  if s1.tmpDirExists then TmpState.mk s1.tmpFileExists false else s1

/-- The open context manager from temporary-directory creation onwards: the
download, the io.open and the caller's body run inside a try whose finally is
openFinally; any of them raising skips the rest and propagates the error. -/
def openCtx (r : OpenRun) : TmpState × Except PyErr Unit :=
  let afterBody : TmpState × Except PyErr Unit :=
    if r.downloadRaises then (⟨r.downloadWritesFile, true⟩, .error .ioError)
    else if r.ioOpenRaises then (⟨true, true⟩, .error .ioError)
    else if r.bodyRaises then (⟨true, true⟩, .error .callerError)
    else (⟨true, true⟩, .ok ())
  (openFinally afterBody.1, afterBody.2)

/-- Python values that can reach the recursive and client parameters of the
object-store calls: None, a boolean, or an ObjectClient instance identified
by its allocation number. -/
inductive PyVal
  | none
  | bool (b : Bool)
  | client (id : Nat)
deriving DecidableEq, BEq, Repr

/-- Python truthiness of the modelled values: None is falsy, booleans are
themselves, object instances are truthy. -/
def PyVal.truthy : PyVal → Bool
  | .none => false
  | .bool b => b
  | .client _ => true

/-- Object-store calls issued by cp, rm, mv and etag, recording the value of
the recursive argument and the identity of the ObjectClient performing the
call. -/
inductive ObjOp
  | copy (src dst : PyStr) (recursive : PyVal) (performedBy : Nat)
  | delete (p : PyStr) (recursive : PyVal) (performedBy : Nat)
  | getObject (p : PyStr) (performedBy : Nat)
deriving DecidableEq, Repr

/-- cp from the source: line 341 rebinds client to a freshly constructed
ObjectClient whatever was passed, and the native copy is invoked with the
recursive argument passed through. nextId is the allocation counter for
ObjectClient instances; it returns the updated counter. -/
def cp_model (nextId : Nat) (source_path destination_path : PyStr)
    (recursive client : PyVal) : List ObjOp × Nat :=
  ([.copy source_path destination_path recursive nextId], nextId + 1)

/-- rm from the source: line 362 likewise rebinds client to a fresh
ObjectClient and delete is invoked with the recursive argument passed
through. -/
def rm_model (nextId : Nat) (project_path : PyStr) (recursive client : PyVal) :
    List ObjOp × Nat :=
  ([.delete project_path recursive nextId], nextId + 1)

/-- Python str.strip of double quotes: remove them from both ends. -/
def stripQuotes (s : PyStr) : PyStr :=
  ((s.dropWhile (fun c => c == '"')).reverse.dropWhile (fun c => c == '"')).reverse

/-- etag from the source: line 403 rebinds client to a fresh ObjectClient,
fetches the object and returns its etag with surrounding quotes stripped.
objects gives the etag string stored for each path. -/
def etag_model (objects : PyStr → PyStr) (nextId : Nat) (project_path : PyStr)
    (client : PyVal) : (PyStr × List ObjOp) × Nat :=
  ((stripQuotes (objects project_path), [.getObject project_path nextId]),
   nextId + 1)

/-- mv from the source: line 315 constructs its own fresh ObjectClient, then
line 317 calls cp(source_path, destination_path, project_id, client) — four
positional arguments, so the client object lands in cp's recursive
parameter — and line 318 calls rm(source_path, project_id, client) — three
positional arguments, landing in rm's recursive parameter; both calls leave
the callee's client parameter at its default None. -/
def mv_model (nextId : Nat) (source_path destination_path : PyStr)
    (client : PyVal) : List ObjOp × Nat :=
  let c := nextId
  let r1 := cp_model (c + 1) source_path destination_path (.client c) .none
  let r2 := rm_model r1.2 source_path (.client c) .none
  (r1.1 ++ r2.1, r2.2)

/-- The object store as a key-value association; the first binding of a key
is its current value. -/
abbrev Store := List (PyStr × PyStr)

/-- Semantics of one object-store call: copy duplicates the source value
under the destination key, delete removes the key but can be made to fail
(the injected partial-failure of the non-atomicity claim), getObject reads. -/
def applyOp (deleteFails : Bool) (s : Store) : ObjOp → Except PyErr Store
  | .copy src dst _ _ =>
    match s.lookup src with
    | some v => .ok ((dst, v) :: s)
    | none => .error .ioError
  | .delete p _ _ =>
    if deleteFails then .error .serviceError
    else .ok (s.filter (fun kv => !(kv.1 == p)))
  | .getObject _ _ => .ok s

/-- Run a sequence of object-store calls, stopping at the first failure; the
effects already applied are kept, as the store offers no rollback. -/
def runOps (deleteFails : Bool) : Store → List ObjOp → Except PyErr Unit × Store
  | s, [] => (.ok (), s)
  | s, op :: rest =>
    match applyOp deleteFails s op with
    | .ok s' => runOps deleteFails s' rest
    | .error e => (.error e, s)

/-- mv executed against the store, with the deletion made to fail or
succeed. -/
def mv_exec (deleteFails : Bool) (s : Store) (src dst : PyStr) :
    Except PyErr Unit × Store :=
  runOps deleteFails s (mv_model 0 src dst .none).1

/-- The distinct expressions mv passes positionally to cp and rm. -/
inductive MvArg
  | sourcePath
  | destinationPath
  | projectId
  | clientObj
deriving DecidableEq, BEq, Repr

/-- The positional argument list of the call cp(source_path,
destination_path, project_id, client) at line 317 of the source. -/
def mv_cp_call_args : List MvArg :=
  [.sourcePath, .destinationPath, .projectId, .clientObj]

/-- The positional argument list of the call rm(source_path, project_id,
client) at line 318 of the source. -/
def mv_rm_call_args : List MvArg := [.sourcePath, .projectId, .clientObj]

/-- The parameter list of def cp(source_path, destination_path,
project_id=None, recursive=None, client=None). -/
def cp_params : List String :=
  ["source_path", "destination_path", "project_id", "recursive", "client"]

/-- The parameter list of def rm(project_path, project_id=None,
recursive=None, client=None). -/
def rm_params : List String :=
  ["project_path", "project_id", "recursive", "client"]

/-- The parameter a given positional argument binds to: parameters and
arguments are matched up pointwise by position. -/
def bindingOf (params : List String) (args : List MvArg) (a : MvArg) :
    Option String :=
  ((params.zip args).find? (fun pr => pr.2 == a)).map Prod.fst

end Datasets

/-- Environment for the concrete _get_directory run: the store lists a single
file under the requested prefix, and the current local directory exists. -/
def envC4 : Datasets.DsEnv := ⟨fun _ => [pstr "/data/a.txt"], [pstr "."]⟩

/-- Environment for the concrete file-branch run of get: /f.txt exists as a
file (listing the slashed prefix finds nothing, listing the path finds it). -/
def envC7 : Datasets.DsEnv :=
  ⟨fun pfx => if pfx = pstr "/f.txt/" then [] else [pstr "/f.txt"], []⟩

/-- Pages used in the concrete witness for the ls draining claim. -/
def lsWitnessPages : List (List PyStr) :=
  [[pstr "/a.csv", pstr "/.h/x"], [pstr "/b/c.txt"]]

theorem lsLoop_serverOfPages (pages : List (List PyStr)) :
    ∀ (fuel i : Nat) (acc : List PyStr), 0 < i → pages.length ≤ i + fuel →
      Datasets.lsLoop (Datasets.serverOfPages pages) fuel acc
          (if i < pages.length then some i else none) =
        some (acc ++ (pages.drop i).flatten) := by
  intro fuel
  induction fuel with
  | zero =>
    intro i acc _ hlen
    have hni : ¬ i < pages.length := by omega
    simp only [hni, if_false, Datasets.lsLoop]
    rw [List.drop_eq_nil_of_le (by omega)]
    simp
  | succ fuel ih =>
    intro i acc hi hlen
    by_cases hil : i < pages.length
    · simp only [hil, if_true, Datasets.lsLoop, Datasets.serverOfPages]
      have hdrop : pages.drop i = pages[i] :: pages.drop (i + 1) :=
        List.drop_eq_getElem_cons hil
      have := ih (i + 1) (acc ++ (pages.drop i).headD []) (by omega) (by omega)
      rw [this, hdrop]
      simp only [List.headD_cons, List.flatten_cons, List.append_assoc]
    · simp only [hil, if_false, Datasets.lsLoop]
      rw [List.drop_eq_nil_of_le (by omega)]
      simp

/-- C1: list_runs with lifecycle_stage None and an explicitly empty
experiment_ids list returns ListExperimentRunsResponse(runs=[],
pagination=Pagination(start=0, size=0, previous=None, next=None)) and issues
no transport call. -/
theorem C1_list_runs_empty_ids_short_circuit {α : Type}
    (transport : String → List (String × Int) → Experiment.ListRunsResponse α)
    (project_id : String) (start limit : Option Int) :
    Experiment.list_runs transport project_id (some []) none start limit =
      (.ok ⟨[], ⟨0, 0, none, none⟩⟩, []) := by
  rfl

/-- C8: serializing a Pagination whose previous and next are both present and
then deserializing the result reproduces the original Pagination, including
the nested Page values. -/
theorem C8_pagination_roundtrip (p : Experiment.Pagination)
    (a b : Experiment.Page) (hp : p.previous = some a) (hn : p.next = some b) :
    Experiment.PaginationSchema_load (Experiment.PaginationSchema_dump p) =
      .ok p := by
  obtain ⟨s, z, prev, nxt⟩ := p
  simp only at hp hn
  subst hp hn
  rfl

/-- Witness for C8 at a concrete Pagination with both adjacent pages. -/
theorem C8_pagination_roundtrip_witness :
    Experiment.PaginationSchema_load
        (Experiment.PaginationSchema_dump ⟨20, 10, some ⟨10, 10⟩, some ⟨30, 10⟩⟩) =
      .ok ⟨20, 10, some ⟨10, 10⟩, some ⟨30, 10⟩⟩ :=
  C8_pagination_roundtrip ⟨20, 10, some ⟨10, 10⟩, some ⟨30, 10⟩⟩
    ⟨10, 10⟩ ⟨30, 10⟩ rfl rfl

/-- C2: ls follows next_page_token page by page until it is None and returns
the object paths concatenated in response order; with show_hidden false,
exactly the paths with no dot-initial slash-separated segment survive, in
order (the result is the filter of the full concatenation). -/
theorem C2_ls_drains_pages_and_filters_hidden (pages : List (List PyStr))
    (fuel : Nat) (h1 : pages ≠ []) (h2 : pages.length ≤ fuel + 1) :
    Datasets.ls_model (Datasets.serverOfPages pages) fuel true =
        some pages.flatten ∧
      Datasets.ls_model (Datasets.serverOfPages pages) fuel false =
        some (pages.flatten.filter (fun p => !Datasets.hasHiddenSegment p)) := by
  obtain ⟨p0, rest, rfl⟩ := List.exists_cons_of_ne_nil h1
  have h2' : (p0 :: rest).length ≤ 1 + fuel := by
    simpa [Nat.add_comm] using h2
  have hloop := lsLoop_serverOfPages (p0 :: rest) fuel 1 p0 (by omega) h2'
  have hdrop : List.drop 1 (p0 :: rest) = rest := rfl
  rw [hdrop] at hloop
  constructor
  · simp only [Datasets.ls_model, Datasets.serverOfPages, List.headD_cons]
    rw [hloop]
    simp
  · simp only [Datasets.ls_model, Datasets.serverOfPages, List.headD_cons]
    rw [hloop]
    simp

/-- Witness for C2 on a concrete two-page listing containing a hidden path. -/
theorem C2_ls_drains_pages_and_filters_hidden_witness :
    Datasets.ls_model (Datasets.serverOfPages lsWitnessPages) 1 true =
        some lsWitnessPages.flatten ∧
      Datasets.ls_model (Datasets.serverOfPages lsWitnessPages) 1 false =
        some (lsWitnessPages.flatten.filter
          (fun p => !Datasets.hasHiddenSegment p)) :=
  C2_ls_drains_pages_and_filters_hidden lsWitnessPages 1 (by decide) (by decide)

/-- C3: every call to put fails at once. Line 222 of
src/faculty/datasets/__init__.py evaluates the module-level name _s3_client,
which is defined nowhere in the module and not imported, so Python raises
NameError before the single root listing, before any ancestor directory
marker is created and before any upload; the claimed behaviour never runs. -/
theorem C3_put_raises_nameError_before_any_operation
    (local_path project_path : PyStr) :
    Datasets.put_model local_path project_path =
      (.error .nameError, ([] : List Datasets.Op)) := rfl

/-- C4: get on a directory fails on the first non-directory entry. The source
calls _get_file(object_path, local_dest, project_id) with three arguments for
four required parameters, so Python raises TypeError: with a listing holding
the single file /data/a.txt, get classifies /data as a directory, lists it,
creates the containing local directory and then raises, downloading
nothing. -/
theorem C4_get_directory_typeError_on_file_entry :
    Datasets.get_t envC4 (pstr "/data") (pstr "out") =
      (.error .typeError,
        [.listObjects (pstr "/data/"), .listObjects (pstr "/data"),
         .makedirs (pstr "out")]) := rfl

/-- C5: on every run of the open context manager that reaches
temporary-directory creation — the download succeeding or raising, io.open
raising, the caller's body raising — after the finally block neither the
temporary file nor the temporary directory exists. -/
theorem C5_open_always_removes_tmp_file_and_dir (r : Datasets.OpenRun) :
    (Datasets.openCtx r).1 = ⟨false, false⟩ := by
  obtain ⟨a, b, c, d⟩ := r
  cases a <;> cases b <;> cases c <;> cases d <;> rfl

/-- C6: mv issues a copy of source to destination followed by a delete of the
source, and is not atomic: when the copy succeeds and the delete fails, the
error propagates and the final store holds the object under both the source
and the destination key, with no rollback of the copy. -/
theorem C6_mv_copy_then_delete_not_atomic (s : Datasets.Store)
    (src dst v : PyStr) (h : s.lookup src = some v) :
    (Datasets.mv_model 0 src dst .none).1 =
        [.copy src dst (.client 0) 1, .delete src (.client 0) 2] ∧
      (Datasets.mv_exec true s src dst).1 = .error .serviceError ∧
      ((Datasets.mv_exec true s src dst).2).lookup src = some v ∧
      ((Datasets.mv_exec true s src dst).2).lookup dst = some v := by
  have hexec : Datasets.mv_exec true s src dst =
      (.error .serviceError, (dst, v) :: s) := by
    simp [Datasets.mv_exec, Datasets.mv_model, Datasets.cp_model,
      Datasets.rm_model, Datasets.runOps, Datasets.applyOp, h]
  refine ⟨rfl, ?_, ?_, ?_⟩
  · rw [hexec]
  · rw [hexec]
    by_cases hdv : dst = src
    · subst hdv
      simp [List.lookup]
    · simp only [List.lookup, h]
      cases src == dst <;> rfl
  · rw [hexec]
    simp [List.lookup]

/-- Witness for C6 on a one-object store whose deletion fails. -/
theorem C6_mv_copy_then_delete_not_atomic_witness :
    (Datasets.mv_model 0 (pstr "a") (pstr "b") .none).1 =
        [.copy (pstr "a") (pstr "b") (.client 0) 1,
         .delete (pstr "a") (.client 0) 2] ∧
      (Datasets.mv_exec true [(pstr "a", pstr "v1")] (pstr "a") (pstr "b")).1 =
        .error .serviceError ∧
      ((Datasets.mv_exec true [(pstr "a", pstr "v1")] (pstr "a")
          (pstr "b")).2).lookup (pstr "a") = some (pstr "v1") ∧
      ((Datasets.mv_exec true [(pstr "a", pstr "v1")] (pstr "a")
          (pstr "b")).2).lookup (pstr "b") = some (pstr "v1") :=
  C6_mv_copy_then_delete_not_atomic [(pstr "a", pstr "v1")] (pstr "a")
    (pstr "b") (pstr "v1") (by decide)

/-- C7 counterexample: with /f.txt classifying as a file and destination
dest/, get raises DatasetsError with no download, but the classification has
already issued a transport-backed listing, so network I/O does occur before
the failure, contrary to the claim. -/
theorem C7_counterexample_listing_precedes_error :
    Datasets.get_t envC7 (pstr "/f.txt") (pstr "dest/") =
      (.error .datasetsError, [.listObjects (pstr "/f.txt/")]) ∧
    (Datasets.get_t envC7 (pstr "/f.txt") (pstr "dest/")).2.countP
        Datasets.isListOp = 1 :=
  ⟨rfl, rfl⟩

/-- C7 amended: when the project path classifies as a file and the local path
ends in a slash, get fails with DatasetsError and performs no download, but
the failure comes after the classification listing: the trace holds exactly
one transport-backed list operation and nothing else. -/
theorem C7_get_file_trailing_slash_fails_after_listing (env : Datasets.DsEnv)
    (pp lp : PyStr) (h1 : (Datasets._isdir_t env pp).1 = false)
    (h2 : Datasets.endsWithSlash lp = true) :
    (Datasets.get_t env pp lp).1 = .error .datasetsError ∧
      (Datasets.get_t env pp lp).2.countP Datasets.isDownloadOp = 0 ∧
      (Datasets.get_t env pp lp).2.countP Datasets.isListOp = 1 := by
  have hfile : Datasets._get_file_t pp lp = (.error .datasetsError, []) := by
    simp [Datasets._get_file_t, h2]
  have hget : Datasets.get_t env pp lp =
      (.error .datasetsError, (Datasets._isdir_t env pp).2) := by
    simp [Datasets.get_t, h1, hfile]
  have htrace : (Datasets._isdir_t env pp).2 =
      [.listObjects (if Datasets.endsWithSlash pp then pp else pp ++ ['/'])] := by
    simp [Datasets._isdir_t, Datasets.ls_t]
  refine ⟨by rw [hget], ?_, ?_⟩
  · rw [hget, htrace]
    rfl
  · rw [hget, htrace]
    rfl

/-- Witness for the amended C7 at the concrete file-classified input. -/
theorem C7_get_file_trailing_slash_fails_after_listing_witness :
    (Datasets.get_t envC7 (pstr "/f.txt") (pstr "dest/")).1 =
        .error .datasetsError ∧
      (Datasets.get_t envC7 (pstr "/f.txt") (pstr "dest/")).2.countP
          Datasets.isDownloadOp = 0 ∧
      (Datasets.get_t envC7 (pstr "/f.txt") (pstr "dest/")).2.countP
          Datasets.isListOp = 1 :=
  C7_get_file_trailing_slash_fails_after_listing envC7 (pstr "/f.txt")
    (pstr "dest/") (by decide) (by decide)

/-- C9: the client parameter of cp, rm, mv and etag has no effect: each
function rebinds client to a freshly constructed ObjectClient, so any two
supplied client values — None included — yield identical operations and
results in the same environment. -/
theorem C9_client_argument_has_no_effect (objects : PyStr → PyStr)
    (nextId : Nat) (src dst p : PyStr) (recursive c1 c2 : Datasets.PyVal) :
    Datasets.cp_model nextId src dst recursive c1 =
        Datasets.cp_model nextId src dst recursive c2 ∧
      Datasets.rm_model nextId p recursive c1 =
        Datasets.rm_model nextId p recursive c2 ∧
      Datasets.mv_model nextId src dst c1 =
        Datasets.mv_model nextId src dst c2 ∧
      Datasets.etag_model objects nextId p c1 =
        Datasets.etag_model objects nextId p c2 :=
  ⟨rfl, rfl, rfl, rfl⟩

/-- C10 counterexample: the third positional argument of mv's call to cp is
project_id, not the internally constructed client, which is the fourth. -/
theorem C10_counterexample_third_positional_is_project_id :
    Datasets.mv_cp_call_args[2]? = some .projectId ∧
      (Datasets.MvArg.projectId == Datasets.MvArg.clientObj) = false := by
  decide

/-- C10 amended: mv passes its internally constructed ObjectClient as the
fourth positional argument to cp and the third to rm, where it binds in both
to the recursive parameter; the store copy and delete are each invoked with
recursive equal to that client object — a truthy value that is neither None
nor a boolean — while cp and rm each construct their own distinct
ObjectClient for the actual operation. -/
theorem C10_client_binds_to_recursive (nextId : Nat) (src dst : PyStr)
    (c : Datasets.PyVal) :
    Datasets.mv_cp_call_args[3]? = some .clientObj ∧
      Datasets.bindingOf Datasets.cp_params Datasets.mv_cp_call_args
          .clientObj = some "recursive" ∧
      Datasets.mv_rm_call_args[2]? = some .clientObj ∧
      Datasets.bindingOf Datasets.rm_params Datasets.mv_rm_call_args
          .clientObj = some "recursive" ∧
      (Datasets.mv_model nextId src dst c).1 =
        [.copy src dst (.client nextId) (nextId + 1),
         .delete src (.client nextId) (nextId + 2)] ∧
      Datasets.PyVal.truthy (.client nextId) = true ∧
      (Datasets.PyVal.client nextId == .none) = false ∧
      (∀ b : Bool, (Datasets.PyVal.client nextId == .bool b) = false) := by
  refine ⟨by decide, by decide, by decide, by decide, rfl, rfl, rfl, ?_⟩
  intro b
  rfl
